import Mathlib

/-!
Shallow embedding of `src/weather_fetcher.py` (a weather-collection script)
and verification of its specification.

Modelling decisions:
* Numeric weather values (`temp`, `humidity`, coordinates) are rationals `ℚ`:
  the properties at stake concern the median algorithm and data plumbing,
  not floating-point rounding.
* Timestamps are `Int`; Python's `%` on integers with a positive divisor
  agrees with Lean's `Int.emod` (both yield a non-negative remainder).
* Network interaction is an oracle: each HTTP request's outcome (a raised
  `requests.exceptions.RequestException`, or a parsed JSON body) is an input
  to the embedded function.  `requestError` covers every exception the
  `except requests.exceptions.RequestException` clauses catch: transport
  errors, `raise_for_status` on a non-2xx response, and JSON decode errors.
* The CSV store is a `List String` of lines; `none` models a non-existent file.
-/

namespace WeatherFetcher

/-- One record of the timemachine response's `"data"` array.  The real
response also carries a `dt` timestamp, modelled here so we can state that
the sampler never uses it. -/
structure HourlyRecord where
  dt : Int
  temp : ℚ
  humidity : ℚ
  deriving Repr, DecidableEq

/-- Parsed JSON body of a timemachine response; `data = none` models a
JSON object with no `"data"` key. -/
structure TimemachineBody where
  data : Option (List HourlyRecord)
  deriving Repr, DecidableEq

/-- Outcome of one HTTP request to the timemachine endpoint. -/
inductive HttpOutcome where
  | requestError
  | ok (body : TimemachineBody)
  deriving Repr, DecidableEq

/-- `fetch_hourly_weather_data` (weather_fetcher.py lines 94-124): returns the
parsed JSON on success, `None` when a `RequestException` was raised. -/
def fetch_hourly_weather_data : HttpOutcome → Option TimemachineBody
  | .requestError => none
  | .ok body => some body

/-- One element of the geocoding response array. -/
structure GeoRecord where
  lat : ℚ
  lon : ℚ
  deriving Repr, DecidableEq

/-- Outcome of one HTTP request to the geocoding endpoint. -/
inductive GeoOutcome where
  | requestError
  | ok (data : List GeoRecord)
  deriving Repr, DecidableEq

/-- `get_city_coordinates` (lines 25-56): on success returns
`(data[0]["lat"], data[0]["lon"])`; on an empty result list or a caught
`RequestException` returns `(None, None)`. -/
def get_city_coordinates : GeoOutcome → Option ℚ × Option ℚ
  | .requestError => (none, none)
  | .ok [] => (none, none)
  | .ok (r :: _) => (some r.lat, some r.lon)

/-- The per-attempt body of the loop in `fetch_stable_weather_data`
(lines 67-71): the guard `weather_data and "data" in weather_data and
weather_data["data"]` followed by taking `weather_data["data"][0]`.
Returns the contributed `(temp, humidity)` pair, or `none` when the
attempt contributes no sample. -/
def attemptSample (o : HttpOutcome) : Option (ℚ × ℚ) :=
  match fetch_hourly_weather_data o with
  | some body =>
    match body.data with
    | some (record :: _) => some (record.temp, record.humidity)
    | _ => none
  | none => none

/-- Trace of the sampling loop of `fetch_stable_weather_data`:
which attempt indices issued a query, and the two accumulator lists
`temperatures` and `humidities`. -/
structure SampleTrace where
  issued : List ℕ
  temps : List ℚ
  hums : List ℚ
  deriving Repr, DecidableEq

/-- The `for i in range(attempts)` loop of `fetch_stable_weather_data`
(lines 66-75).  Every iteration issues its query unconditionally; a
successful attempt appends to both accumulators.  (The `time.sleep(0.5)`
between iterations has no data effect and is not modelled.) -/
def runSample (q : ℕ → HttpOutcome) : ℕ → SampleTrace
  | 0 => ⟨[], [], []⟩
  | n + 1 =>
    let st := runSample q n
    match attemptSample (q n) with
    | some (t, h) => ⟨st.issued ++ [n], st.temps ++ [t], st.hums ++ [h]⟩
    | none => ⟨st.issued ++ [n], st.temps, st.hums⟩

/-- `statistics.median` from the Python standard library: sort, take the
middle element for odd length, the mean of the two middle elements for even
length.  Python raises `StatisticsError` on an empty list; the only call
site guards against that, so the empty case here returns an unreachable
junk value. -/
def median (xs : List ℚ) : ℚ :=
  let s := List.insertionSort (· ≤ ·) xs
  let n := s.length
  if n % 2 = 1 then s.getD (n / 2) 0
  else (s.getD (n / 2 - 1) 0 + s.getD (n / 2) 0) / 2

/-- The median as worded by the spec (§4.2): the statistical median of the
collected values, where the median of an even count of samples is the
arithmetic mean of the two middle values of the sorted list. -/
def medianSpec (xs : List ℚ) : ℚ :=
  let s := List.insertionSort (· ≤ ·) xs
  let n := s.length
  if n % 2 = 0 then (s.getD (n / 2 - 1) 0 + s.getD (n / 2) 0) / 2
  else s.getD (n / 2)  0

/-- The dictionary returned by a successful `fetch_stable_weather_data`. -/
structure WeatherReading where
  timestamp : Int
  temperature : ℚ
  humidity : ℚ
  deriving Repr, DecidableEq

/-- `fetch_stable_weather_data` (lines 58-92): run the sampling loop, return
`None` if either accumulator is empty, otherwise the per-metric medians
with the caller's timestamp. -/
def fetch_stable_weather_data (q : ℕ → HttpOutcome) (timestamp : Int)
    (attempts : ℕ := 3) : Option WeatherReading :=
  if (runSample q attempts).temps = [] ∨ (runSample q attempts).hums = [] then
    none
  else
    some { timestamp := timestamp,
           temperature := median (runSample q attempts).temps,
           humidity := median (runSample q attempts).hums }

/-- One entry of the `CITIES` dict (lines 19-23): name and country code.
`dict` iteration order in Python 3.7+ is insertion order, so the dict is
modelled as a list in that fixed order. -/
structure CityEntry where
  name : String
  country_code : String
  deriving Repr, DecidableEq

/-- The `CITIES` constant (lines 19-23), in iteration order. -/
def CITIES : List CityEntry :=
  [⟨"Cape Town", "ZA"⟩, ⟨"Kigali", "RW"⟩, ⟨"Kampala", "UG"⟩]

/-- One row of the output batch / CSV file (the dict appended at
lines 210-215, column order `timestamp, city, temperature, humidity`). -/
structure Row where
  timestamp : Int
  city : String
  temperature : ℚ
  humidity : ℚ
  deriving Repr, DecidableEq

/-- `previous_hour_timestamp` as computed by `main` (lines 192-193):
`current_time - (current_time % 3600) - 3600`. -/
def previous_hour_timestamp (now : Int) : Int :=
  now - now % 3600 - 3600

/-- State of `main`'s per-city loop.  `stable_record` models the Python
local variable of that name: `none` means it was never assigned (reading it
raises `UnboundLocalError`, modelled by the `crashed` flag), `some none`
means it holds Python `None`, `some (some r)` a (truthy) reading dict. -/
structure LoopState where
  stable_record : Option (Option WeatherReading)
  batch : List Row
  geoCalls : List String
  weatherCalls : ℕ
  crashed : Bool
  deriving Repr, DecidableEq

/-- One iteration of `main`'s city loop (lines 201-221), transcribed with
the source's indentation: the `if stable_record:` test at line 208 is NOT
nested under the coordinate check at line 205, so it reads whatever
`stable_record` holds from a previous iteration when resolution fails, and
crashes with `UnboundLocalError` if the variable was never assigned. -/
def cityStep (ts : Int) (geo : GeoOutcome) (wq : ℕ → HttpOutcome)
    (city : CityEntry) (st : LoopState) : LoopState :=
  if st.crashed then st
  else
    let st1 : LoopState := { st with geoCalls := st.geoCalls ++ [city.name] }
    let st2 : LoopState :=
      match get_city_coordinates geo with
      | (some _, some _) =>
        { st1 with
          weatherCalls := st1.weatherCalls + (runSample wq 3).issued.length,
          stable_record := some (fetch_stable_weather_data wq ts 3) }
      | _ => st1
    match st2.stable_record with
    | none => { st2 with crashed := true }
    | some none => st2
    | some (some r) =>
      { st2 with
        batch := st2.batch ++
          [{ timestamp := r.timestamp, city := city.name,
             temperature := r.temperature, humidity := r.humidity }] }

/-- The whole city loop of `main`: fold `cityStep` over the city list,
feeding city `i` the geocoding outcome `geo i` and the weather-query
oracle `wq i`. -/
def mainLoop (ts : Int) (geo : ℕ → GeoOutcome) (wq : ℕ → ℕ → HttpOutcome)
    (cities : List CityEntry) : LoopState :=
  (cities.enum).foldl
    (fun st ic => cityStep ts (geo ic.1) (wq ic.1) ic.2 st)
    ⟨none, [], [], 0, false⟩

/-- Observable outcome of one run of `main`. -/
structure MainResult where
  configError : Bool
  crashed : Bool
  geoCalls : List String
  weatherCalls : ℕ
  batch : List Row
  storeWrite : Option (List Row)
  rowsWritten : ℕ
  deriving Repr, DecidableEq

/-- The tail of `main` after the city loop (lines 224-235): a crashed run
(UnboundLocalError) aborts before the CSV step; an empty batch skips the
CSV step (`if not all_weather_data: return`); otherwise the whole batch is
written and its length reported. -/
def mainAfterLoop (st : LoopState) : MainResult :=
  if st.crashed then
    { configError := false, crashed := true, geoCalls := st.geoCalls,
      weatherCalls := st.weatherCalls, batch := st.batch,
      storeWrite := none, rowsWritten := 0 }
  else if st.batch = [] then
    { configError := false, crashed := false, geoCalls := st.geoCalls,
      weatherCalls := st.weatherCalls, batch := st.batch,
      storeWrite := none, rowsWritten := 0 }
  else
    { configError := false, crashed := false, geoCalls := st.geoCalls,
      weatherCalls := st.weatherCalls, batch := st.batch,
      storeWrite := some st.batch, rowsWritten := st.batch.length }

/-- `main` (lines 187-235).  `apiKey` is `os.environ.get("OPENWEATHER_API_KEY")`
(`none` when the variable is absent); the `if not API_KEY` guard also
treats the empty string as falsy. -/
def main (apiKey : Option String) (now : Int) (cities : List CityEntry)
    (geo : ℕ → GeoOutcome) (wq : ℕ → ℕ → HttpOutcome) : MainResult :=
  if apiKey = none ∨ apiKey = some "" then
    { configError := true, crashed := false, geoCalls := [], weatherCalls := 0,
      batch := [], storeWrite := none, rowsWritten := 0 }
  else
    mainAfterLoop (mainLoop (previous_hour_timestamp now) geo wq cities)

/-- The CSV header pandas writes for the batch's columns. -/
def headerLine : String := "timestamp,city,temperature,humidity"

/-- One CSV data line for a row (`index=False`, comma-separated in column
order).  Exact numeric formatting is irrelevant to the claims, which are
about line structure. -/
def rowToLine (r : Row) : String :=
  toString r.timestamp ++ "," ++ r.city ++ "," ++
    toString r.temperature ++ "," ++ toString r.humidity

/-- The CSV write of `main` (lines 230-235): if `DATA_FILE` does not exist
(`file = none`), write header plus rows; otherwise append the rows with
`header=False`. -/
def storeAppend (file : Option (List String)) (rows : List Row) : List String :=
  match file with
  | none => headerLine :: rows.map rowToLine
  | some lines => lines ++ rows.map rowToLine

/-- Effect of a finished run on the backing file: the file is rewritten
only when the run performed a store write. -/
def applyRun (file : Option (List String)) (res : MainResult) :
    Option (List String) :=
  match res.storeWrite with
  | none => file
  | some rows => some (storeAppend file rows)

/-! ### Helper lemmas about the sampling loop and the median -/

/-- Every iteration of the sampling loop issues its query: the issued
indices are exactly `0, …, attempts-1` in order. -/
lemma runSample_issued (q : ℕ → HttpOutcome) :
    ∀ n, (runSample q n).issued = List.range n
  | 0 => rfl
  | n + 1 => by
    rw [List.range_succ, ← runSample_issued q n]
    simp only [runSample]
    rcases h : attemptSample (q n) with _ | ⟨t, hum⟩ <;> simp [h]

/-- The `temperatures` accumulator collects exactly the `temp` of each
contributing attempt, in attempt order. -/
lemma runSample_temps (q : ℕ → HttpOutcome) :
    ∀ n, (runSample q n).temps =
      (List.range n).filterMap (fun i => (attemptSample (q i)).map Prod.fst)
  | 0 => rfl
  | n + 1 => by
    rw [List.range_succ, List.filterMap_append, ← runSample_temps q n]
    simp only [runSample]
    rcases h : attemptSample (q n) with _ | ⟨t, hum⟩ <;> simp [h]

/-- The `humidities` accumulator collects exactly the `humidity` of each
contributing attempt, in attempt order. -/
lemma runSample_hums (q : ℕ → HttpOutcome) :
    ∀ n, (runSample q n).hums =
      (List.range n).filterMap (fun i => (attemptSample (q i)).map Prod.snd)
  | 0 => rfl
  | n + 1 => by
    rw [List.range_succ, List.filterMap_append, ← runSample_hums q n]
    simp only [runSample]
    rcases h : attemptSample (q n) with _ | ⟨t, hum⟩ <;> simp [h]

/-- `fetch_stable_weather_data` returns `None` exactly when an accumulator
stayed empty. -/
lemma fetch_stable_eq_none_iff (q : ℕ → HttpOutcome) (ts : Int) (attempts : ℕ) :
    fetch_stable_weather_data q ts attempts = none ↔
      (runSample q attempts).temps = [] ∨ (runSample q attempts).hums = [] := by
  unfold fetch_stable_weather_data
  split <;> simp_all

/-- The accumulator is empty exactly when no attempt contributed. -/
lemma runSample_temps_eq_nil_iff (q : ℕ → HttpOutcome) (n : ℕ) :
    (runSample q n).temps = [] ↔ ∀ i, i < n → attemptSample (q i) = none := by
  rw [runSample_temps, List.filterMap_eq_nil_iff]
  constructor
  · intro h i hi
    have := h i (List.mem_range.mpr hi)
    exact Option.map_eq_none'.mp this
  · intro h i hi
    rw [h i (List.mem_range.mp hi)]
    rfl

/-- Same for humidities. -/
lemma runSample_hums_eq_nil_iff (q : ℕ → HttpOutcome) (n : ℕ) :
    (runSample q n).hums = [] ↔ ∀ i, i < n → attemptSample (q i) = none := by
  rw [runSample_hums, List.filterMap_eq_nil_iff]
  constructor
  · intro h i hi
    have := h i (List.mem_range.mpr hi)
    exact Option.map_eq_none'.mp this
  · intro h i hi
    rw [h i (List.mem_range.mp hi)]
    rfl

/-- `filterMap` over `range n` of a function defined at exactly one index
below `n` yields the singleton of its value there. -/
lemma filterMap_range_single {α : Type} (f : ℕ → Option α) (v : α) :
    ∀ n i, i < n → f i = some v → (∀ j, j < n → j ≠ i → f j = none) →
      (List.range n).filterMap f = [v]
  | 0, i, hi, _, _ => absurd hi (Nat.not_lt_zero i)
  | n + 1, i, hi, hv, ho => by
    rw [List.range_succ, List.filterMap_append]
    by_cases hin : i = n
    · have h1 : (List.range n).filterMap f = [] := by
        rw [List.filterMap_eq_nil_iff]
        intro a ha
        exact ho a (Nat.lt_succ_of_lt (List.mem_range.mp ha))
          (by have := List.mem_range.mp ha; omega)
      subst hin
      simp [h1, hv]
    · have hi' : i < n := by omega
      have h2 : f n = none := ho n (Nat.lt_succ_self n) (fun h => hin h.symm)
      rw [filterMap_range_single f v n i hi' hv
        (fun j hj hji => ho j (Nat.lt_succ_of_lt hj) hji)]
      simp [h2]

/-- The library median agrees with the spec's wording of the median. -/
lemma median_eq_medianSpec (xs : List ℚ) : median xs = medianSpec xs := by
  unfold median medianSpec
  rcases Nat.mod_two_eq_zero_or_one xs.length with h | h <;>
    simp [List.length_insertionSort, h]

/-- Median of a single sample is that sample. -/
lemma median_singleton (t : ℚ) : median [t] = t := by
  simp [median, List.insertionSort, List.orderedInsert]

/-- The CSV step reports/batches exactly the loop's batch. -/
lemma mainAfterLoop_batch (st : LoopState) :
    (mainAfterLoop st).batch = st.batch := by
  unfold mainAfterLoop
  rcases Bool.eq_false_or_eq_true st.crashed with h1 | h1 <;>
    by_cases h2 : st.batch = [] <;> simp [h1, h2]

/-- With an empty batch the CSV step writes nothing and reports zero rows. -/
lemma mainAfterLoop_empty (st : LoopState) (h : st.batch = []) :
    (mainAfterLoop st).rowsWritten = 0 ∧ (mainAfterLoop st).storeWrite = none := by
  unfold mainAfterLoop
  rcases Bool.eq_false_or_eq_true st.crashed with h1 | h1 <;> simp [h1, h]

/-! ### Concrete scenario oracles -/

/-- Geocoding oracle for a two-city run: the first city resolves to
`(1, 2)`, every later city's request fails. -/
def geoOnlyFirst : ℕ → GeoOutcome :=
  fun i => if i = 0 then .ok [⟨1, 2⟩] else .requestError

/-- Weather oracle where every query of every city succeeds with
`temp = 20`, `humidity = 50`. -/
def wqConst : ℕ → ℕ → HttpOutcome :=
  fun _ _ => .ok ⟨some [⟨0, 20, 50⟩]⟩

/-- Per-attempt oracle where only attempt 1 succeeds (with `temp = 20`,
`humidity = 50`); attempts 0 and 2 fail with a request error. -/
def wqOne : ℕ → HttpOutcome
  | 1 => .ok ⟨some [⟨0, 20, 50⟩]⟩
  | _ => .requestError

/-- Per-attempt oracle with four successful attempts whose temperatures
are `19, 19.5, 20.5, 21` (an even-count sample). -/
def wqEven : ℕ → HttpOutcome
  | 0 => .ok ⟨some [⟨0, 19, 60⟩]⟩
  | 1 => .ok ⟨some [⟨0, 39/2, 50⟩]⟩
  | 2 => .ok ⟨some [⟨0, 41/2, 40⟩]⟩
  | _ => .ok ⟨some [⟨0, 21, 55⟩]⟩

/-- Spec §8 odd-count scenario: temperatures `[19.8, 20.1, 20.0]` reduce to
the middle value `20.0`. -/
example : median [198/10, 201/10, 20] = 20 := by
  norm_num [median, List.insertionSort, List.orderedInsert]

/-- Spec §8 even-count scenario: temperatures `[19.0, 19.5, 20.5, 21.0]`
reduce to the mean of the two middle values, `20.0`. -/
example : median [19, 39/2, 41/2, 21] = 20 := by
  norm_num [median, List.insertionSort, List.orderedInsert]

/-! ### Claim theorems -/

/-- C1: the claim says a city whose resolution fails contributes no row, so
with `[CityA (succeeds, temp 20 / hum 50), CityB (resolution fails)]`
exactly one row is written.  The code violates this: the `if stable_record:`
test at line 208 sits outside the coordinate check of line 205, so CityB's
iteration re-reads CityA's `stable_record` and appends a second row,
labelled CityB but carrying CityA's sampled values. -/
theorem C1_resolution_failure_reuses_stale_record :
    (main (some "key") 7200 [⟨"CityA", "AA"⟩, ⟨"CityB", "BB"⟩]
        geoOnlyFirst wqConst).batch =
      [⟨3600, "CityA", 20, 50⟩, ⟨3600, "CityB", 20, 50⟩] ∧
    (main (some "key") 7200 [⟨"CityA", "AA"⟩, ⟨"CityB", "BB"⟩]
        geoOnlyFirst wqConst).rowsWritten = 2 := by
  decide

/-- C2: whenever at least one of the `attempts ≥ 1` queries yields data,
the sampler returns a reading whose temperature is the median (in the
spec's sense, mean-of-two-middles for even counts) of all collected
temperatures and whose humidity is, independently, the median of all
collected humidities. -/
theorem C2_returns_median_of_samples (q : ℕ → HttpOutcome) (ts : Int)
    (attempts : ℕ) (h1 : 1 ≤ attempts)
    (h2 : ∃ i, i < attempts ∧ attemptSample (q i) ≠ none) :
    ∃ r, fetch_stable_weather_data q ts attempts = some r ∧
      r.temperature = medianSpec (runSample q attempts).temps ∧
      r.humidity = medianSpec (runSample q attempts).hums := by
  obtain ⟨i, hi, hne⟩ := h2
  have ht : (runSample q attempts).temps ≠ [] := fun hnil =>
    hne ((runSample_temps_eq_nil_iff q attempts).mp hnil i hi)
  have hh : (runSample q attempts).hums ≠ [] := fun hnil =>
    hne ((runSample_hums_eq_nil_iff q attempts).mp hnil i hi)
  refine ⟨⟨ts, median (runSample q attempts).temps,
          median (runSample q attempts).hums⟩, ?_,
    median_eq_medianSpec _, median_eq_medianSpec _⟩
  unfold fetch_stable_weather_data
  rw [if_neg (by push_neg; exact ⟨ht, hh⟩)]

/-- Witness for C2: the even-count oracle `wqEven` with 4 attempts. -/
theorem C2_returns_median_of_samples_witness :
    ∃ r, fetch_stable_weather_data wqEven 100 4 = some r ∧
      r.temperature = medianSpec (runSample wqEven 4).temps ∧
      r.humidity = medianSpec (runSample wqEven 4).hums :=
  C2_returns_median_of_samples wqEven 100 4 (by decide)
    ⟨0, by decide, by decide⟩

/-- C3: the sampler fails exactly when zero attempts contribute a sample;
with exactly one contributing attempt (out of any number, e.g. 1 of 3) the
reading equals that single sample's values. -/
theorem C3_failure_iff_no_success (q : ℕ → HttpOutcome) (ts : Int)
    (attempts : ℕ) :
    (fetch_stable_weather_data q ts attempts = none ↔
      ∀ i, i < attempts → attemptSample (q i) = none) ∧
    ∀ i t hu, i < attempts → attemptSample (q i) = some (t, hu) →
      (∀ j, j < attempts → j ≠ i → attemptSample (q j) = none) →
      fetch_stable_weather_data q ts attempts = some ⟨ts, t, hu⟩ := by
  constructor
  · rw [fetch_stable_eq_none_iff, runSample_temps_eq_nil_iff,
      runSample_hums_eq_nil_iff]
    tauto
  · intro i t hu hi hsome hothers
    have ht : (runSample q attempts).temps = [t] := by
      rw [runSample_temps]
      exact filterMap_range_single _ t attempts i hi (by rw [hsome]; rfl)
        (fun j hj hji => by rw [hothers j hj hji]; rfl)
    have hh : (runSample q attempts).hums = [hu] := by
      rw [runSample_hums]
      exact filterMap_range_single _ hu attempts i hi (by rw [hsome]; rfl)
        (fun j hj hji => by rw [hothers j hj hji]; rfl)
    unfold fetch_stable_weather_data
    rw [if_neg (by simp [ht, hh])]
    rw [ht, hh, median_singleton, median_singleton]

/-- Witness for C3: one success out of three yields that sample; zero
successes yield failure. -/
theorem C3_failure_iff_no_success_witness :
    fetch_stable_weather_data wqOne 5 3 = some ⟨5, 20, 50⟩ ∧
    fetch_stable_weather_data (fun _ => .requestError) 5 3 = none :=
  ⟨(C3_failure_iff_no_success wqOne 5 3).2 1 20 50 (by decide) (by decide)
      (by decide),
   ((C3_failure_iff_no_success (fun _ => .requestError) 5 3).1).mpr
      (by decide)⟩

/-- C4: whatever each attempt's outcome, all `attempts` queries are issued
(in index order); a failed attempt — a swallowed request error (covering
network faults, non-2xx statuses and JSON decode errors), a body without a
`"data"` key, or an empty `"data"` array — merely contributes no sample. -/
theorem C4_failures_do_not_abort_attempts (q : ℕ → HttpOutcome)
    (attempts : ℕ) :
    (runSample q attempts).issued = List.range attempts ∧
    (runSample q attempts).temps =
      (List.range attempts).filterMap
        (fun i => (attemptSample (q i)).map Prod.fst) ∧
    (runSample q attempts).hums =
      (List.range attempts).filterMap
        (fun i => (attemptSample (q i)).map Prod.snd) ∧
    fetch_hourly_weather_data .requestError = none ∧
    attemptSample .requestError = none ∧
    attemptSample (.ok ⟨none⟩) = none ∧
    attemptSample (.ok ⟨some []⟩) = none :=
  ⟨runSample_issued q attempts, runSample_temps q attempts,
   runSample_hums q attempts, rfl, rfl, rfl, rfl⟩

/-- C5: `main`'s target hour is `now` truncated to the hour boundary minus
3600; it is strictly below the truncation and itself hour-aligned. -/
theorem C5_target_hour_alignment (now : Int) :
    previous_hour_timestamp now = (now - now % 3600) - 3600 ∧
    previous_hour_timestamp now < now - now % 3600 ∧
    previous_hour_timestamp now % 3600 = 0 := by
  unfold previous_hour_timestamp
  refine ⟨rfl, by omega, by omega⟩

/-- C6: persisting a non-empty batch of `N` rows creates the file as one
header line plus the `N` data lines when it is absent, and appends exactly
the `N` data lines — no header, existing content untouched — when present. -/
theorem C6_store_append_shape (rows : List Row) (h : rows ≠ []) :
    storeAppend none rows = headerLine :: rows.map rowToLine ∧
    (storeAppend none rows).length = 1 + rows.length ∧
    ∀ lines, storeAppend (some lines) rows = lines ++ rows.map rowToLine ∧
      (storeAppend (some lines) rows).length = lines.length + rows.length ∧
      (storeAppend (some lines) rows).take lines.length = lines := by
  refine ⟨rfl, by simp [storeAppend]; omega, fun lines => ⟨rfl, ?_, ?_⟩⟩
  · simp [storeAppend]
  · simp [storeAppend, List.take_left]

/-- Witness for C6 at a concrete one-row batch. -/
theorem C6_store_append_shape_witness :
    storeAppend none [⟨0, "CityA", 20, 50⟩] =
      headerLine :: [(⟨0, "CityA", 20, 50⟩ : Row)].map rowToLine ∧
    (storeAppend none [⟨0, "CityA", 20, 50⟩]).length = 1 + 1 ∧
    ∀ lines, storeAppend (some lines) [⟨0, "CityA", 20, 50⟩] =
        lines ++ [(⟨0, "CityA", 20, 50⟩ : Row)].map rowToLine ∧
      (storeAppend (some lines) [⟨0, "CityA", 20, 50⟩]).length =
        lines.length + 1 ∧
      (storeAppend (some lines) [⟨0, "CityA", 20, 50⟩]).take lines.length =
        lines :=
  C6_store_append_shape [⟨0, "CityA", 20, 50⟩] (by simp)

/-- C7: with the credential absent (`apiKey = none`), `main` reports the
misconfiguration and returns before any geocoding or weather request and
before touching the store: the file is unchanged. -/
theorem C7_missing_credential_aborts (now : Int) (cities : List CityEntry)
    (geo : ℕ → GeoOutcome) (wq : ℕ → ℕ → HttpOutcome)
    (file : Option (List String)) :
    (main none now cities geo wq).configError = true ∧
    (main none now cities geo wq).geoCalls = [] ∧
    (main none now cities geo wq).weatherCalls = 0 ∧
    (main none now cities geo wq).storeWrite = none ∧
    applyRun file (main none now cities geo wq) = file := by
  simp [main, applyRun]

/-- C8: a run that ends with an empty batch reports zero rows written and
performs no store write: the backing file is neither created nor
modified. -/
theorem C8_empty_batch_no_write (apiKey : Option String) (now : Int)
    (cities : List CityEntry) (geo : ℕ → GeoOutcome)
    (wq : ℕ → ℕ → HttpOutcome) (file : Option (List String))
    (h : (main apiKey now cities geo wq).batch = []) :
    (main apiKey now cities geo wq).rowsWritten = 0 ∧
    (main apiKey now cities geo wq).storeWrite = none ∧
    applyRun file (main apiKey now cities geo wq) = file := by
  by_cases hc : apiKey = none ∨ apiKey = some ""
  · simp [main, hc, applyRun]
  · have hm : main apiKey now cities geo wq =
        mainAfterLoop (mainLoop (previous_hour_timestamp now) geo wq cities) := by
      simp [main, hc]
    rw [hm] at h ⊢
    have hb : (mainLoop (previous_hour_timestamp now) geo wq cities).batch = [] := by
      rw [← mainAfterLoop_batch]
      exact h
    obtain ⟨hr, hs⟩ := mainAfterLoop_empty _ hb
    exact ⟨hr, hs, by simp [applyRun, hs]⟩

/-- Witness for C8: a one-city run whose every weather query fails leaves
an existing file untouched. -/
theorem C8_empty_batch_no_write_witness :
    (main (some "k") 7200 [⟨"CityA", "AA"⟩] geoOnlyFirst
        (fun _ _ => .requestError)).rowsWritten = 0 ∧
    (main (some "k") 7200 [⟨"CityA", "AA"⟩] geoOnlyFirst
        (fun _ _ => .requestError)).storeWrite = none ∧
    applyRun (some [headerLine])
        (main (some "k") 7200 [⟨"CityA", "AA"⟩] geoOnlyFirst
          (fun _ _ => .requestError)) = some [headerLine] :=
  C8_empty_batch_no_write (some "k") 7200 [⟨"CityA", "AA"⟩] geoOnlyFirst
    (fun _ _ => .requestError) (some [headerLine]) (by decide)

/-- C9: `get_city_coordinates` either returns both coordinates or neither;
a request error (network/transport failure or non-2xx status raised by
`raise_for_status`) and an empty result list both yield `(None, None)`
rather than a propagated exception. -/
theorem C9_coordinates_all_or_nothing :
    (∀ o, get_city_coordinates o = (none, none) ∨
      ∃ la lo, get_city_coordinates o = (some la, some lo)) ∧
    get_city_coordinates .requestError = (none, none) ∧
    get_city_coordinates (.ok []) = (none, none) := by
  refine ⟨fun o => ?_, rfl, rfl⟩
  cases o with
  | requestError => exact Or.inl rfl
  | ok data =>
    cases data with
    | nil => exact Or.inl rfl
    | cons r rest => exact Or.inr ⟨r.lat, r.lon, rfl⟩

/-- C10: a successful `fetch_stable_weather_data` carries the caller's
timestamp argument unchanged; the `dt` fields of the API responses never
reach the result. -/
theorem C10_timestamp_passthrough (q : ℕ → HttpOutcome) (ts : Int)
    (attempts : ℕ) (r : WeatherReading)
    (h : fetch_stable_weather_data q ts attempts = some r) :
    r.timestamp = ts := by
  unfold fetch_stable_weather_data at h
  split at h
  · exact absurd h (by simp)
  · exact (Option.some.inj h) ▸ rfl

/-- Witness for C10: the single-success run of `wqOne` keeps timestamp 5. -/
theorem C10_timestamp_passthrough_witness :
    (⟨5, 20, 50⟩ : WeatherReading).timestamp = 5 :=
  C10_timestamp_passthrough wqOne 5 3 ⟨5, 20, 50⟩ (by decide)

end WeatherFetcher
